import Mathlib

/-!
Verification of the grid-trading engine of `modules/grid/grid_trading.py`
(`GridTradingModule`): a shallow embedding of its data model and operations
(`create_grid`, `_calculate_grid_prices`, `_create_initial_orders`,
`update_grid`, `stop_grid`, `load_grid_configs`, `save_grid_configs`),
with theorems checking the specified properties.

Modelling conventions:
* Python floats / decimals are modelled as exact rationals (`ℚ`).
* `round(x, 4)` is modelled as rounding `x * 10^4` to the nearest integer
  (`round4` below).
* The market and trading collaborator modules are modelled as structures of
  pure functions supplied as parameters (`Market`, `Gateway`); a `None` /
  falsy reply becomes `Option.none`, a `{'success': True, 'order_id': n}`
  reply becomes `some n`.
* The module state (`grid_configs`, `active_grids`, the persisted JSON file)
  becomes an explicit `EngineState` record threaded through the operations.
  In the Python code `grid_configs[s]` and `active_grids[s]` alias the same
  mutable dict, so an in-place mutation is visible through both; the pure
  model reflects this by writing the updated config to both association
  lists at each mutation point.
* Each operation additionally returns the list of order submissions it sent
  to the gateway (an observation trace), so that "an order was submitted"
  is expressible even when the gateway rejects it.
-/

namespace GridBot

/-- Order side: the `'type'` field of a grid order dict (`'buy'` / `'sell'`). -/
inductive Side where
  | buy
  | sell
deriving DecidableEq

/-- A grid order dict as built by `_create_initial_orders` / `update_grid`:
`{'order_id': …, 'type': …, 'price': …, 'amount': …, 'status': …}`. -/
structure GridOrder where
  orderId : Nat
  side : Side
  price : ℚ
  amount : ℚ
  status : String
deriving DecidableEq

/-- One limit-order submission sent to the trading module
(`buy_limit` / `sell_limit` call), recorded whether or not it succeeds. -/
structure Submission where
  side : Side
  price : ℚ
  amount : ℚ
deriving DecidableEq

/-- The grid config dict built by `create_grid` (timestamps as abstract
`Nat` ticks). -/
structure GridConfig where
  symbol : String
  gridCount : Nat
  amountPerGrid : ℚ
  priceUpper : ℚ
  priceLower : ℚ
  currentPrice : ℚ
  gridPrices : List ℚ
  active : Bool
  createdAt : Nat
  totalProfit : ℚ
  completedTrades : Nat
  pendingOrders : List GridOrder
  stoppedAt : Option Nat
  lastUpdate : Option Nat
deriving DecidableEq

/-- The market-data collaborator (`self.market`): `get_4hour_range` returns
`(high, low)` or fails, `get_ticker` returns the `'close'` price or fails. -/
structure Market where
  get4hourRange : String → Option (ℚ × ℚ)
  getTicker : String → Option ℚ

/-- The trading collaborator (`self.trading`): limit-order placement returns
the new order id on success (`{'success': True, 'order_id': …}`) and `none`
on rejection; `get_order_detail` returns the order's `'state'` string or
`none`; `cancel_order` returns success; `get_symbol_info` returns symbol
metadata or `none` (only its presence matters to the grid module). -/
structure Gateway where
  buyLimit : String → ℚ → ℚ → Option Nat
  sellLimit : String → ℚ → ℚ → Option Nat
  getOrderDetail : Nat → Option String
  cancelOrder : Nat → Bool
  getSymbolInfo : String → Option Unit

/-- The mutable state of `GridTradingModule`: the `grid_configs` dict, the
`active_grids` dict, and the content of `data/grids/configs.json`
(as written by the last `save_grid_configs`). -/
structure EngineState where
  gridConfigs : List (String × GridConfig)
  activeGrids : List (String × GridConfig)
  persisted : List (String × GridConfig)
deriving DecidableEq

/-- The empty module state (`grid_configs = {}`, `active_grids = {}`). -/
def emptyState : EngineState := ⟨[], [], []⟩

/-- Python `dict` lookup `d.get(k)` on an association list. -/
def lookupKey (k : String) : List (String × GridConfig) → Option GridConfig
  | [] => none
  | (k', v) :: rest => if k' = k then some v else lookupKey k rest

/-- Python `dict` write `d[k] = v`: replaces the existing binding in place
or appends a new one (insertion order preserved, keys unique). -/
def upsert (k : String) (v : GridConfig) :
    List (String × GridConfig) → List (String × GridConfig)
  | [] => [(k, v)]
  | (k', v') :: rest =>
      if k' = k then (k, v) :: rest else (k', v') :: upsert k v rest

/-- Python `del d[k]`. -/
def removeKey (k : String) :
    List (String × GridConfig) → List (String × GridConfig)
  | [] => []
  | (k', v') :: rest =>
      if k' = k then removeKey k rest else (k', v') :: removeKey k rest

/-- The tagged failure reasons returned as `{'error': …}` strings by the
Python module (the model replaces the message strings by tags). -/
inductive GridError where
  /-- Message `'{symbol} 已有活动的网格交易'` — pair already has an active grid. -/
  | alreadyActive
  /-- Message `'获取4小时K线失败'` — 4-hour range unavailable. -/
  | rangeUnavailable
  /-- Message `'请指定价格上下限'` — manual bounds missing (or falsy `0`). -/
  | missingBounds
  /-- Message `'获取当前价格失败'` — ticker unavailable. -/
  | tickerUnavailable
  /-- Message `'价格上限必须大于下限'` — `price_upper <= price_lower`. -/
  | invalidRange
  /-- Message `'当前价格 … 不在网格范围内'` — current price outside the bounds. -/
  | priceOutOfRange
  /-- Message `'获取交易对信息失败'` — symbol metadata unavailable. -/
  | symbolInfoUnavailable
  /-- Message `'division by zero'` — the `ZeroDivisionError` raised inside
  `_calculate_grid_prices` when `grid_count == 0`, caught by the generic
  `except` of `create_grid`. -/
  | divisionByZero
  /-- Message `'{symbol} 没有活动的网格交易'` — no active grid for the pair. -/
  | noActiveGrid
  /-- Message `'网格交易已停止'` — config present but `active` false. -/
  | gridStopped
deriving DecidableEq

/-- Python `round(x, 4)`: round to 4 decimal places, modelled with
round-to-nearest on `x * 10^4`. -/
def round4 (x : ℚ) : ℚ := (round (x * 10000) : ℚ) / 10000

/-- Model of `GridTradingModule._calculate_grid_prices`: the evenly spaced ladder
`[round(price_lower + i * (price_upper - price_lower)/grid_count, 4)
  for i in range(grid_count + 1)]`. -/
def calculate_grid_prices (priceUpper priceLower : ℚ) (gridCount : Nat) :
    List ℚ :=
  let priceDiff := (priceUpper - priceLower) / gridCount
  (List.range (gridCount + 1)).map
    (fun i : ℕ => round4 (priceLower + priceDiff * (i : ℚ)))

/-- Model of `GridTradingModule._create_initial_orders`: walk the grid
levels; for a level below `current_price * 0.99` submit a buy limit order,
for a level above `current_price * 1.01` submit a sell limit order, and skip
levels in between; a successfully placed order is appended to the result
with status `'pending'`.  Returns `(submissions sent, orders placed)`. -/
def create_initial_orders (gw : Gateway) (sym : String) (amount c : ℚ) :
    List ℚ → List Submission × List GridOrder
  | [] => ([], [])
  | p :: rest =>
    let tail := create_initial_orders gw sym amount c rest
    if p < c * (99 / 100) then
      (⟨Side.buy, p, amount⟩ :: tail.1,
       ((gw.buyLimit sym p amount).map
         (fun oid => (⟨oid, Side.buy, p, amount, "pending"⟩ : GridOrder))).toList
         ++ tail.2)
    else if p > c * (101 / 100) then
      (⟨Side.sell, p, amount⟩ :: tail.1,
       ((gw.sellLimit sym p amount).map
         (fun oid => (⟨oid, Side.sell, p, amount, "pending"⟩ : GridOrder))).toList
         ++ tail.2)
    else tail

/-- The result dict of a successful `create_grid` (the fields a caller
consumes: the symbol and `initial_orders`, the count of placed orders). -/
structure CreateResult where
  symbol : String
  initialOrderCount : Nat
deriving DecidableEq

/-- The result dict of a successful `update_grid`. -/
structure UpdateResult where
  completedThisTick : Nat
  newOrdersThisTick : Nat
  totalCompleted : Nat
  totalProfit : ℚ
  activeOrderCount : Nat
deriving DecidableEq

/-- The result dict of a successful `stop_grid`. -/
structure StopResult where
  symbol : String
  cancelledOrders : Nat
  totalTrades : Nat
  totalProfit : ℚ
deriving DecidableEq

/-- The test `order_detail and order_detail['state'] == 'filled'` applied to
the reply of `get_order_detail` (a missing reply is not filled). -/
def statusFilled : Option String → Bool
  | some s => s = "filled"
  | none => false

/-- The replacement submission `update_grid` sends for a filled order: a
filled buy at price `p` triggers a sell at `p * 1.005`, a filled sell at
price `p` triggers a buy at `p * 0.995`, for the same amount. -/
def replacementSub (o : GridOrder) : Submission :=
  match o.side with
  | Side.buy => ⟨Side.sell, o.price * (1005 / 1000), o.amount⟩
  | Side.sell => ⟨Side.buy, o.price * (995 / 1000), o.amount⟩

/-- The replacement order `update_grid` adds to the pending list for a
filled order, if the gateway accepts the submission (`none` on rejection). -/
def replacementOrder (gw : Gateway) (sym : String) (o : GridOrder) :
    Option GridOrder :=
  match o.side with
  | Side.buy =>
      (gw.sellLimit sym (o.price * (1005 / 1000)) o.amount).map
        (fun oid => ⟨oid, Side.sell, o.price * (1005 / 1000), o.amount, "pending"⟩)
  | Side.sell =>
      (gw.buyLimit sym (o.price * (995 / 1000)) o.amount).map
        (fun oid => ⟨oid, Side.buy, o.price * (995 / 1000), o.amount, "pending"⟩)

/-- Accumulator of the `for order in config['pending_orders']` loop of
`update_grid`: the retained orders, the replacement orders, the number of
fills seen, the estimated profit added, and the submissions sent. -/
structure TickAcc where
  updatedOrders : List GridOrder
  newOrders : List GridOrder
  completed : Nat
  profit : ℚ
  submissions : List Submission
deriving DecidableEq

/-- The reconciliation loop of `update_grid`: each pending order whose
`get_order_detail` state is `'filled'` counts as completed, contributes
`amount * price * 0.001` to profit when it was a sell, and is replaced by
an opposite-side submission (kept only if accepted); every other order is
retained unchanged. -/
def updateLoop (gw : Gateway) (sym : String) : List GridOrder → TickAcc
  | [] => ⟨[], [], 0, 0, []⟩
  | o :: rest =>
    let acc := updateLoop gw sym rest
    if statusFilled (gw.getOrderDetail o.orderId) then
      { updatedOrders := acc.updatedOrders
        newOrders := (replacementOrder gw sym o).toList ++ acc.newOrders
        completed := acc.completed + 1
        profit := (if o.side = Side.sell then o.amount * o.price * (1 / 1000) else 0)
          + acc.profit
        submissions := replacementSub o :: acc.submissions }
    else
      { acc with updatedOrders := o :: acc.updatedOrders }

/-- Update of the config dict at the end of a successful `update_grid` tick:
`pending_orders = updated_orders + new_orders`, the fill count and estimated
profit added to the running totals, and `last_update` stamped. -/
def reconciledConfig (gw : Gateway) (now : Nat) (sym : String)
    (cfg : GridConfig) : GridConfig :=
  { cfg with
      pendingOrders := (updateLoop gw sym cfg.pendingOrders).updatedOrders
        ++ (updateLoop gw sym cfg.pendingOrders).newOrders
      completedTrades := cfg.completedTrades
        + (updateLoop gw sym cfg.pendingOrders).completed
      totalProfit := cfg.totalProfit + (updateLoop gw sym cfg.pendingOrders).profit
      lastUpdate := some now }

/-- Model of `GridTradingModule.update_grid`: fails when the pair has no
entry in `active_grids` or its config is inactive; otherwise reconciles
every pending order against the gateway, installs the reconciled config in
both dicts (one shared mutable dict in Python), and saves the configs.
Returns `(result, new state, submissions sent)`. -/
def update_grid (gw : Gateway) (now : Nat) (st : EngineState) (sym : String) :
    Except GridError UpdateResult × EngineState × List Submission :=
  match lookupKey sym st.activeGrids with
  | none => (Except.error GridError.noActiveGrid, st, [])
  | some cfg =>
    if cfg.active = false then (Except.error GridError.gridStopped, st, [])
    else
      let acc := updateLoop gw sym cfg.pendingOrders
      let cfg' := reconciledConfig gw now sym cfg
      let st' : EngineState :=
        { gridConfigs := upsert sym cfg' st.gridConfigs
          activeGrids := upsert sym cfg' st.activeGrids
          persisted := upsert sym cfg' st.gridConfigs }
      (Except.ok
        ⟨acc.completed, acc.newOrders.length, cfg'.completedTrades,
         cfg'.totalProfit, cfg'.pendingOrders.length⟩, st', acc.submissions)

/-- The cancellation loop of `stop_grid`: count the pending orders the
gateway confirms as cancelled. -/
def cancelLoop (gw : Gateway) : List GridOrder → Nat
  | [] => 0
  | o :: rest => (if gw.cancelOrder o.orderId then 1 else 0) + cancelLoop gw rest

/-- Model of `GridTradingModule.stop_grid`: fails when the pair has no entry in
`active_grids`; otherwise (optionally) cancels all pending orders, marks the
config inactive, stamps `stopped_at`, removes the pair from `active_grids`,
and saves the configs. -/
def stop_grid (gw : Gateway) (now : Nat) (st : EngineState) (sym : String)
    (cancelOrders : Bool) :
    Except GridError StopResult × EngineState × List Submission :=
  match lookupKey sym st.activeGrids with
  | none => (Except.error GridError.noActiveGrid, st, [])
  | some cfg =>
    let cancelled := if cancelOrders then cancelLoop gw cfg.pendingOrders else 0
    let cfg' : GridConfig := { cfg with active := false, stoppedAt := some now }
    let st' : EngineState :=
      { gridConfigs := upsert sym cfg' st.gridConfigs
        activeGrids := removeKey sym st.activeGrids
        persisted := upsert sym cfg' st.gridConfigs }
    (Except.ok ⟨sym, cancelled, cfg'.completedTrades, cfg'.totalProfit⟩, st', [])

/-- Resolution of the price bounds at the start of `create_grid`: either the
4-hour high/low from the market module, or the explicit bounds, where a
missing bound — or a bound of `0`, falsy in the Python test
`if not price_upper or not price_lower` — is an error. -/
def resolveBounds (mkt : Market) (sym : String) (use4hRange : Bool)
    (priceUpper priceLower : Option ℚ) : Except GridError (ℚ × ℚ) :=
  if use4hRange then
    match mkt.get4hourRange sym with
    | none => Except.error GridError.rangeUnavailable
    | some (hi, lo) => Except.ok (hi, lo)
  else
    match priceUpper, priceLower with
    | some pu, some pl =>
        if pu = 0 ∨ pl = 0 then Except.error GridError.missingBounds
        else Except.ok (pu, pl)
    | _, _ => Except.error GridError.missingBounds

/-- The config dict built by `create_grid`, with an empty `pending_orders`
list and zero counters. -/
def freshConfig (sym : String) (gridCount : Nat) (amountPerGrid pu pl c : ℚ)
    (now : Nat) : GridConfig :=
  { symbol := sym
    gridCount := gridCount
    amountPerGrid := amountPerGrid
    priceUpper := pu
    priceLower := pl
    currentPrice := c
    gridPrices := calculate_grid_prices pu pl gridCount
    active := true
    createdAt := now
    totalProfit := 0
    completedTrades := 0
    pendingOrders := []
    stoppedAt := none
    lastUpdate := none }

/-- Model of `GridTradingModule.create_grid`: rejects a pair that already
has an active grid; resolves the price bounds; rejects
`price_upper <= price_lower` and a current price outside the bounds;
computes the ladder (a `grid_count` of `0` raises `ZeroDivisionError` in
`_calculate_grid_prices`, caught by the generic handler of `create_grid`);
builds the config with an empty `pending_orders`, stores it in both dicts
and saves it; then places the initial orders and assigns them to the
in-memory config (no second save).  Returns
`(result, new state, submissions sent)`. -/
def create_grid (mkt : Market) (gw : Gateway) (now : Nat) (st : EngineState)
    (sym : String) (gridCount : Nat) (amountPerGrid : ℚ) (use4hRange : Bool)
    (priceUpper priceLower : Option ℚ) :
    Except GridError CreateResult × EngineState × List Submission :=
  if (lookupKey sym st.activeGrids).elim false (fun c => c.active) then
    (Except.error GridError.alreadyActive, st, [])
  else
    match resolveBounds mkt sym use4hRange priceUpper priceLower with
    | Except.error e => (Except.error e, st, [])
    | Except.ok (pu, pl) =>
      match mkt.getTicker sym with
      | none => (Except.error GridError.tickerUnavailable, st, [])
      | some c =>
        if pu ≤ pl then (Except.error GridError.invalidRange, st, [])
        else if c > pu ∨ c < pl then
          (Except.error GridError.priceOutOfRange, st, [])
        else if gridCount = 0 then
          (Except.error GridError.divisionByZero, st, [])
        else
          match gw.getSymbolInfo sym with
          | none => (Except.error GridError.symbolInfoUnavailable, st, [])
          | some _ =>
            let config := freshConfig sym gridCount amountPerGrid pu pl c now
            let st1 : EngineState :=
              { gridConfigs := upsert sym config st.gridConfigs
                activeGrids := upsert sym config st.activeGrids
                persisted := upsert sym config st.gridConfigs }
            let placed := create_initial_orders gw sym amountPerGrid c
              (calculate_grid_prices pu pl gridCount)
            let config' : GridConfig := { config with pendingOrders := placed.2 }
            let st2 : EngineState :=
              { st1 with
                  gridConfigs := upsert sym config' st1.gridConfigs
                  activeGrids := upsert sym config' st1.activeGrids }
            (Except.ok ⟨sym, placed.2.length⟩, st2, placed.1)

/-- The outcome of reading `data/grids/configs.json` at startup. -/
inductive LoadInput where
  /-- The file does not exist (`FileNotFoundError`). -/
  | fileNotFound
  /-- The file exists but cannot be parsed (any other exception). -/
  | unreadable
  /-- The file parses to the given configs. -/
  | stored (configs : List (String × GridConfig))

/-- Model of `GridTradingModule.load_grid_configs`: on success installs the stored
configs and re-registers every config with `active = true` in
`active_grids`; on `FileNotFoundError` or any other exception, starts with
an empty `grid_configs` (and the `active_grids` dict stays empty as
initialised by `__init__`) — never fatal. -/
def load_grid_configs (input : LoadInput) : EngineState :=
  match input with
  | LoadInput.fileNotFound => { gridConfigs := [], activeGrids := [], persisted := [] }
  | LoadInput.unreadable => { gridConfigs := [], activeGrids := [], persisted := [] }
  | LoadInput.stored configs =>
      { gridConfigs := configs
        activeGrids := configs.filter (fun p => p.2.active)
        persisted := configs }

/-- The registry's `GetActive(pair)` operation: the `active_grids` entry for
the pair (`not-found` is `none`). -/
def getActive (st : EngineState) (sym : String) : Option GridConfig :=
  lookupKey sym st.activeGrids

/-- One engine operation, with the collaborators and clock it runs against,
for stating properties of arbitrary operation sequences. -/
inductive EngineOp where
  | createGridOp (mkt : Market) (gw : Gateway) (now : Nat) (sym : String)
      (gridCount : Nat) (amountPerGrid : ℚ) (use4hRange : Bool)
      (priceUpper priceLower : Option ℚ)
  | updateGridOp (gw : Gateway) (now : Nat) (sym : String)
  | stopGridOp (gw : Gateway) (now : Nat) (sym : String) (cancelOrders : Bool)

/-- Run one engine operation on a state (the state component of its result). -/
def applyOp (st : EngineState) : EngineOp → EngineState
  | EngineOp.createGridOp mkt gw now sym gc amt u4 pu pl =>
      (create_grid mkt gw now st sym gc amt u4 pu pl).2.1
  | EngineOp.updateGridOp gw now sym => (update_grid gw now st sym).2.1
  | EngineOp.stopGridOp gw now sym co => (stop_grid gw now st sym co).2.1

/-- Run a sequence of engine operations left to right. -/
def applyOps (st : EngineState) (ops : List EngineOp) : EngineState :=
  ops.foldl applyOp st

/-- Whether an operation is a `create_grid` call for the given pair. -/
def EngineOp.isCreateFor (sym : String) : EngineOp → Bool
  | EngineOp.createGridOp _ _ _ s _ _ _ _ _ => s = sym
  | _ => false

/-- Whether an operation is a `stop_grid` call for the given pair. -/
def EngineOp.isStopFor (sym : String) : EngineOp → Bool
  | EngineOp.stopGridOp _ _ s _ => s = sym
  | _ => false

/-! ### Concrete collaborator stubs, used to run the model on concrete inputs -/

/-- A market stub: 4-hour range `(3, 1)`, ticker price `2`. -/
def mkt2 : Market := ⟨fun _ => some (3, 1), fun _ => some 2⟩

/-- A gateway stub that rejects every placement and knows no order. -/
def gwReject : Gateway :=
  ⟨fun _ _ _ => none, fun _ _ _ => none, fun _ => none, fun _ => false,
   fun _ => some ()⟩

/-- A gateway stub that accepts every placement (buy id `101`, sell id
`102`) and reports every order as `'filled'`. -/
def gwFilled : Gateway :=
  ⟨fun _ _ _ => some 101, fun _ _ _ => some 102, fun _ => some "filled",
   fun _ => true, fun _ => some ()⟩

/-- A gateway stub that accepts every placement and reports every order as
`'submitted'` (still resting). -/
def gwResting : Gateway :=
  ⟨fun _ _ _ => some 201, fun _ _ _ => some 202, fun _ => some "submitted",
   fun _ => true, fun _ => some ()⟩

/-- A gateway stub that reports every order as `'canceled'`. -/
def gwCanceled : Gateway :=
  ⟨fun _ _ _ => some 301, fun _ _ _ => some 302, fun _ => some "canceled",
   fun _ => true, fun _ => some ()⟩

/-- A sample pending buy order at price `1`. -/
def buyOrder1 : GridOrder := ⟨11, Side.buy, 1, 1, "pending"⟩

/-- A sample active config for `"btcusdt"` holding `buyOrder1`. -/
def sampleCfg : GridConfig :=
  { symbol := "btcusdt", gridCount := 2, amountPerGrid := 1, priceUpper := 3,
    priceLower := 1, currentPrice := 2,
    gridPrices := calculate_grid_prices 3 1 2, active := true, createdAt := 0,
    totalProfit := 0, completedTrades := 0, pendingOrders := [buyOrder1],
    stoppedAt := none, lastUpdate := none }

/-- A state holding `sampleCfg` as the active grid of `"btcusdt"`. -/
def sampleState : EngineState :=
  { gridConfigs := [("btcusdt", sampleCfg)]
    activeGrids := [("btcusdt", sampleCfg)]
    persisted := [("btcusdt", sampleCfg)] }

/-! ### Dictionary lemmas -/

theorem lookupKey_upsert_self (k : String) (v : GridConfig)
    (l : List (String × GridConfig)) : lookupKey k (upsert k v l) = some v := by
  induction l with
  | nil => simp [lookupKey, upsert]
  | cons hd tl ih =>
      obtain ⟨k', v'⟩ := hd
      by_cases hk : k' = k
      · simp [lookupKey, upsert, hk]
      · simp [lookupKey, upsert, hk, ih]

theorem lookupKey_upsert_of_ne (k k' : String) (v : GridConfig)
    (l : List (String × GridConfig)) (h : k ≠ k') :
    lookupKey k' (upsert k v l) = lookupKey k' l := by
  induction l with
  | nil => simp [lookupKey, upsert, h]
  | cons hd tl ih =>
      obtain ⟨k'', v''⟩ := hd
      by_cases hk : k'' = k
      · subst hk
        simp [lookupKey, upsert, h]
      · simp [lookupKey, upsert, hk, ih]

theorem lookupKey_removeKey_self (k : String) (l : List (String × GridConfig)) :
    lookupKey k (removeKey k l) = none := by
  induction l with
  | nil => simp [lookupKey, removeKey]
  | cons hd tl ih =>
      obtain ⟨k', v'⟩ := hd
      by_cases hk : k' = k
      · simp [removeKey, hk, ih]
      · simp [lookupKey, removeKey, hk, ih]

theorem lookupKey_removeKey_of_ne (k k' : String) (l : List (String × GridConfig))
    (h : k ≠ k') : lookupKey k' (removeKey k l) = lookupKey k' l := by
  induction l with
  | nil => simp [lookupKey, removeKey]
  | cons hd tl ih =>
      obtain ⟨k'', v''⟩ := hd
      by_cases hk : k'' = k
      · subst hk
        simp [lookupKey, removeKey, h, ih]
      · simp [lookupKey, removeKey, hk, ih]

theorem upsert_upsert (k : String) (v v' : GridConfig)
    (l : List (String × GridConfig)) :
    upsert k v' (upsert k v l) = upsert k v' l := by
  induction l with
  | nil => simp [upsert]
  | cons hd tl ih =>
      obtain ⟨k'', v''⟩ := hd
      by_cases hk : k'' = k
      · simp [upsert, hk]
      · simp [upsert, hk, ih]

/-! ### Characterization of the reconciliation loop -/

/-- Filter for the orders the gateway reports as filled. -/
def filledFilter (gw : Gateway) (l : List GridOrder) : List GridOrder :=
  l.filter (fun o => statusFilled (gw.getOrderDetail o.orderId))

/-- Filter for the orders the gateway does not report as filled. -/
def keptFilter (gw : Gateway) (l : List GridOrder) : List GridOrder :=
  l.filter (fun o => !statusFilled (gw.getOrderDetail o.orderId))

theorem updateLoop_eq (gw : Gateway) (sym : String) (l : List GridOrder) :
    updateLoop gw sym l =
      { updatedOrders := keptFilter gw l
        newOrders := (filledFilter gw l).filterMap (replacementOrder gw sym)
        completed := (filledFilter gw l).length
        profit := ((filledFilter gw l).map
            (fun o => if o.side = Side.sell then o.amount * o.price * (1 / 1000)
              else 0)).sum
        submissions := (filledFilter gw l).map replacementSub } := by
  induction l with
  | nil => rfl
  | cons o rest ih =>
      by_cases hf : statusFilled (gw.getOrderDetail o.orderId)
      · cases hrep : replacementOrder gw sym o with
        | none =>
            simp [updateLoop, ih, filledFilter, keptFilter, List.filter_cons,
              hf, hrep, Nat.add_comm]
        | some r =>
            simp [updateLoop, ih, filledFilter, keptFilter, List.filter_cons,
              hf, hrep, Nat.add_comm]
      · simp [updateLoop, ih, filledFilter, keptFilter, List.filter_cons, hf]

/-- Membership characterization of the submissions sent by
`_create_initial_orders` (mirrors the `if`/`elif` order of the source: a
buy wins when both conditions hold, which can only happen for a negative
current price). -/
theorem mem_initial_submissions (gw : Gateway) (sym : String) (amt c : ℚ)
    (prices : List ℚ) (s : Submission) :
    s ∈ (create_initial_orders gw sym amt c prices).1 ↔
      s.amount = amt ∧ s.price ∈ prices ∧
      ((s.side = Side.buy ∧ s.price < c * (99 / 100)) ∨
       (s.side = Side.sell ∧ ¬ s.price < c * (99 / 100) ∧
         c * (101 / 100) < s.price)) := by
  obtain ⟨sd, pr, am⟩ := s
  induction prices with
  | nil => simp [create_initial_orders]
  | cons p rest ih =>
      by_cases h1 : p < c * (99 / 100)
      · simp only [create_initial_orders, if_pos h1, List.mem_cons,
          Submission.mk.injEq, ih]
        constructor
        · rintro (⟨rfl, rfl, rfl⟩ | ⟨h2, h3, h4⟩)
          · exact ⟨rfl, Or.inl rfl, Or.inl ⟨rfl, h1⟩⟩
          · exact ⟨h2, Or.inr h3, h4⟩
        · rintro ⟨rfl, hmem, hside⟩
          rcases hmem with rfl | hmem'
          · rcases hside with ⟨rfl, _⟩ | ⟨_, hn, _⟩
            · exact Or.inl ⟨rfl, rfl, rfl⟩
            · exact absurd h1 hn
          · exact Or.inr ⟨rfl, hmem', hside⟩
      · by_cases h2 : c * (101 / 100) < p
        · simp only [create_initial_orders, if_neg h1, if_pos h2,
            List.mem_cons, Submission.mk.injEq, ih]
          constructor
          · rintro (⟨rfl, rfl, rfl⟩ | ⟨h3, h4, h5⟩)
            · exact ⟨rfl, Or.inl rfl, Or.inr ⟨rfl, h1, h2⟩⟩
            · exact ⟨h3, Or.inr h4, h5⟩
          · rintro ⟨rfl, hmem, hside⟩
            rcases hmem with rfl | hmem'
            · rcases hside with ⟨rfl, hlt⟩ | ⟨rfl, _, _⟩
              · exact absurd hlt h1
              · exact Or.inl ⟨rfl, rfl, rfl⟩
            · exact Or.inr ⟨rfl, hmem', hside⟩
        · simp only [create_initial_orders, if_neg h1, if_neg h2,
            List.mem_cons, Submission.mk.injEq, ih]
          constructor
          · rintro ⟨h3, h4, h5⟩
            exact ⟨h3, Or.inr h4, h5⟩
          · rintro ⟨rfl, hmem, hside⟩
            rcases hmem with rfl | hmem'
            · rcases hside with ⟨_, hlt⟩ | ⟨_, _, hgt⟩
              · exact absurd hlt h1
              · exact absurd hgt h2
            · exact ⟨rfl, hmem', hside⟩

/-! ### Rounding and ladder lemmas -/

theorem round4_abs_sub (x : ℚ) : |x - round4 x| ≤ 1 / 20000 := by
  have h := abs_sub_round (x * 10000)
  unfold round4
  have hx : x - (round (x * 10000) : ℚ) / 10000
      = (x * 10000 - (round (x * 10000) : ℚ)) / 10000 := by ring
  rw [hx, abs_div, abs_of_pos (by norm_num : (0 : ℚ) < 10000)]
  linarith

theorem round4_lt_round4 (x y : ℚ) (h : x + 1 / 10000 < y) :
    round4 x < round4 y := by
  have hx := abs_le.mp (round4_abs_sub x)
  have hy := abs_le.mp (round4_abs_sub y)
  linarith [hx.1, hx.2, hy.1, hy.2]

theorem round4_eq (x : ℚ) (m : ℤ) (h1 : (m : ℚ) ≤ x * 10000 + 1 / 2)
    (h2 : x * 10000 + 1 / 2 < m + 1) : round4 x = (m : ℚ) / 10000 := by
  have hfl : ⌊x * 10000 + 1 / 2⌋ = m := Int.floor_eq_iff.mpr ⟨h1, h2⟩
  unfold round4
  rw [round_eq, hfl]

theorem calculate_grid_prices_length (pu pl : ℚ) (n : ℕ) :
    (calculate_grid_prices pu pl n).length = n + 1 := by
  simp [calculate_grid_prices]

theorem calculate_grid_prices_getD (pu pl : ℚ) (n i : ℕ) (hi : i < n + 1) :
    (calculate_grid_prices pu pl n).getD i 0
      = round4 (pl + (pu - pl) / n * i) := by
  unfold calculate_grid_prices
  rw [List.getD_eq_getElem?_getD, List.getElem?_map, List.getElem?_range hi]
  rfl

theorem calculate_grid_prices_chain (pu pl : ℚ) (n : ℕ)
    (hstep : 1 / 10000 < (pu - pl) / n) :
    List.Chain' (· < ·) (calculate_grid_prices pu pl n) := by
  rw [List.chain'_iff_get]
  intro i hlen
  have hi : i < n := by
    have hL := calculate_grid_prices_length pu pl n
    omega
  simp only [calculate_grid_prices, List.get_eq_getElem, List.getElem_map,
    List.getElem_range]
  apply round4_lt_round4
  have hexp : pl + (pu - pl) / n * ((i : ℚ) + 1)
      = pl + (pu - pl) / n * (i : ℚ) + (pu - pl) / n := by ring
  push_cast
  rw [hexp]
  linarith

/-! ### Engine-operation unfolding lemmas -/

theorem update_grid_of_none (gw : Gateway) (now : Nat) (st : EngineState)
    (sym : String) (h : lookupKey sym st.activeGrids = none) :
    update_grid gw now st sym = (Except.error GridError.noActiveGrid, st, []) := by
  unfold update_grid
  rw [h]

theorem update_grid_of_active (gw : Gateway) (now : Nat) (st : EngineState)
    (sym : String) (cfg : GridConfig)
    (h : lookupKey sym st.activeGrids = some cfg) (ha : cfg.active = true) :
    update_grid gw now st sym =
      (Except.ok ⟨(updateLoop gw sym cfg.pendingOrders).completed,
        (updateLoop gw sym cfg.pendingOrders).newOrders.length,
        (reconciledConfig gw now sym cfg).completedTrades,
        (reconciledConfig gw now sym cfg).totalProfit,
        (reconciledConfig gw now sym cfg).pendingOrders.length⟩,
       ⟨upsert sym (reconciledConfig gw now sym cfg) st.gridConfigs,
        upsert sym (reconciledConfig gw now sym cfg) st.activeGrids,
        upsert sym (reconciledConfig gw now sym cfg) st.gridConfigs⟩,
       (updateLoop gw sym cfg.pendingOrders).submissions) := by
  unfold update_grid
  rw [h]
  simp [ha]

theorem stop_grid_of_none (gw : Gateway) (now : Nat) (st : EngineState)
    (sym : String) (co : Bool) (h : lookupKey sym st.activeGrids = none) :
    stop_grid gw now st sym co = (Except.error GridError.noActiveGrid, st, []) := by
  unfold stop_grid
  rw [h]

theorem stop_grid_of_some (gw : Gateway) (now : Nat) (st : EngineState)
    (sym : String) (co : Bool) (cfg : GridConfig)
    (h : lookupKey sym st.activeGrids = some cfg) :
    stop_grid gw now st sym co =
      (Except.ok ⟨sym, if co then cancelLoop gw cfg.pendingOrders else 0,
         cfg.completedTrades, cfg.totalProfit⟩,
       ⟨upsert sym { cfg with active := false, stoppedAt := some now } st.gridConfigs,
        removeKey sym st.activeGrids,
        upsert sym { cfg with active := false, stoppedAt := some now } st.gridConfigs⟩,
       []) := by
  unfold stop_grid
  rw [h]

theorem create_grid_of_alreadyActive (mkt : Market) (gw : Gateway) (now : Nat)
    (st : EngineState) (sym : String) (gc : Nat) (amt : ℚ) (u4 : Bool)
    (pu pl : Option ℚ)
    (h : (lookupKey sym st.activeGrids).elim false (fun c => c.active) = true) :
    create_grid mkt gw now st sym gc amt u4 pu pl
      = (Except.error GridError.alreadyActive, st, []) := by
  unfold create_grid
  rw [if_pos h]

theorem create_grid_ok_spec (mkt : Market) (gw : Gateway) (now : Nat)
    (st : EngineState) (sym : String) (gc : Nat) (amt : ℚ) (u4 : Bool)
    (pu pl : Option ℚ) (res : CreateResult)
    (h : (create_grid mkt gw now st sym gc amt u4 pu pl).1 = Except.ok res) :
    ∃ bu bl c : ℚ,
      resolveBounds mkt sym u4 pu pl = Except.ok (bu, bl) ∧
      mkt.getTicker sym = some c ∧
      ¬ bu ≤ bl ∧ ¬ (c > bu ∨ c < bl) ∧ gc ≠ 0 ∧
      create_grid mkt gw now st sym gc amt u4 pu pl =
        (Except.ok ⟨sym,
            (create_initial_orders gw sym amt c
              (calculate_grid_prices bu bl gc)).2.length⟩,
         ⟨upsert sym
            { freshConfig sym gc amt bu bl c now with
                pendingOrders := (create_initial_orders gw sym amt c
                  (calculate_grid_prices bu bl gc)).2 }
            (upsert sym (freshConfig sym gc amt bu bl c now) st.gridConfigs),
          upsert sym
            { freshConfig sym gc amt bu bl c now with
                pendingOrders := (create_initial_orders gw sym amt c
                  (calculate_grid_prices bu bl gc)).2 }
            (upsert sym (freshConfig sym gc amt bu bl c now) st.activeGrids),
          upsert sym (freshConfig sym gc amt bu bl c now) st.gridConfigs⟩,
         (create_initial_orders gw sym amt c
           (calculate_grid_prices bu bl gc)).1) := by
  unfold create_grid at h ⊢
  by_cases hact : (lookupKey sym st.activeGrids).elim false (fun c => c.active)
  · rw [if_pos hact] at h
    simp at h
  · rw [if_neg hact] at h ⊢
    cases hb : resolveBounds mkt sym u4 pu pl with
    | error e =>
        rw [hb] at h
        simp at h
    | ok bs =>
      obtain ⟨bu, bl⟩ := bs
      rw [hb] at h
      cases ht : mkt.getTicker sym with
      | none =>
          rw [ht] at h
          simp at h
      | some c =>
        rw [ht] at h
        dsimp only at h ⊢
        by_cases h1 : bu ≤ bl
        · rw [if_pos h1] at h
          simp at h
        · rw [if_neg h1] at h ⊢
          by_cases h2 : c > bu ∨ c < bl
          · rw [if_pos h2] at h
            simp at h
          · rw [if_neg h2] at h ⊢
            by_cases h3 : gc = 0
            · rw [if_pos h3] at h
              simp at h
            · rw [if_neg h3] at h ⊢
              cases hsi : gw.getSymbolInfo sym with
              | none =>
                  rw [hsi] at h
                  simp at h
              | some u =>
                exact ⟨bu, bl, c, rfl, rfl, h1, h2, h3, rfl⟩

/-! ### Shape of the active-grids dict after each operation -/

theorem update_grid_activeGrids_shape (gw : Gateway) (now : Nat)
    (st : EngineState) (sym : String) :
    (update_grid gw now st sym).2.1.activeGrids = st.activeGrids ∨
    ∃ c, (update_grid gw now st sym).2.1.activeGrids
      = upsert sym c st.activeGrids := by
  unfold update_grid
  cases h : lookupKey sym st.activeGrids with
  | none => exact Or.inl rfl
  | some cfg =>
      dsimp only
      by_cases ha : cfg.active = false
      · rw [if_pos ha]
        exact Or.inl rfl
      · rw [if_neg ha]
        exact Or.inr ⟨reconciledConfig gw now sym cfg, rfl⟩

theorem stop_grid_activeGrids_shape (gw : Gateway) (now : Nat)
    (st : EngineState) (sym : String) (co : Bool) :
    (stop_grid gw now st sym co).2.1.activeGrids = st.activeGrids ∨
    (stop_grid gw now st sym co).2.1.activeGrids = removeKey sym st.activeGrids := by
  unfold stop_grid
  cases h : lookupKey sym st.activeGrids with
  | none => exact Or.inl rfl
  | some cfg => exact Or.inr rfl

theorem create_grid_activeGrids_shape (mkt : Market) (gw : Gateway) (now : Nat)
    (st : EngineState) (sym : String) (gc : Nat) (amt : ℚ) (u4 : Bool)
    (pu pl : Option ℚ) :
    (create_grid mkt gw now st sym gc amt u4 pu pl).2.1.activeGrids
      = st.activeGrids ∨
    ∃ c, (create_grid mkt gw now st sym gc amt u4 pu pl).2.1.activeGrids
      = upsert sym c st.activeGrids := by
  unfold create_grid
  by_cases hact : (lookupKey sym st.activeGrids).elim false (fun c => c.active)
  · rw [if_pos hact]
    exact Or.inl rfl
  · rw [if_neg hact]
    cases hb : resolveBounds mkt sym u4 pu pl with
    | error e => exact Or.inl rfl
    | ok bs =>
      obtain ⟨bu, bl⟩ := bs
      cases ht : mkt.getTicker sym with
      | none => exact Or.inl rfl
      | some c =>
        dsimp only
        by_cases h1 : bu ≤ bl
        · rw [if_pos h1]
          exact Or.inl rfl
        · rw [if_neg h1]
          by_cases h2 : c > bu ∨ c < bl
          · rw [if_pos h2]
            exact Or.inl rfl
          · rw [if_neg h2]
            by_cases h3 : gc = 0
            · rw [if_pos h3]
              exact Or.inl rfl
            · rw [if_neg h3]
              cases hsi : gw.getSymbolInfo sym with
              | none => exact Or.inl rfl
              | some u =>
                refine Or.inr ⟨{ freshConfig sym gc amt bu bl c now with
                    pendingOrders := (create_initial_orders gw sym amt c
                      (calculate_grid_prices bu bl gc)).2 }, ?_⟩
                simp only []
                rw [upsert_upsert]

/-! ### Preservation of activity status across operation sequences -/

theorem getActive_none_step (st : EngineState) (sym : String) (op : EngineOp)
    (h : getActive st sym = none) (hop : op.isCreateFor sym = false) :
    getActive (applyOp st op) sym = none := by
  cases op with
  | createGridOp mkt gw now s gc amt u4 pu pl =>
      have hs : s ≠ sym := by simpa [EngineOp.isCreateFor] using hop
      rcases create_grid_activeGrids_shape mkt gw now st s gc amt u4 pu pl with
        heq | ⟨c, heq⟩
      · show lookupKey sym (create_grid mkt gw now st s gc amt u4 pu pl).2.1.activeGrids = none
        rw [heq]
        exact h
      · show lookupKey sym (create_grid mkt gw now st s gc amt u4 pu pl).2.1.activeGrids = none
        rw [heq, lookupKey_upsert_of_ne s sym c _ hs]
        exact h
  | updateGridOp gw now s =>
      by_cases hs : s = sym
      · subst hs
        show lookupKey s (update_grid gw now st s).2.1.activeGrids = none
        rw [update_grid_of_none gw now st s h]
        exact h
      · rcases update_grid_activeGrids_shape gw now st s with heq | ⟨c, heq⟩
        · show lookupKey sym (update_grid gw now st s).2.1.activeGrids = none
          rw [heq]
          exact h
        · show lookupKey sym (update_grid gw now st s).2.1.activeGrids = none
          rw [heq, lookupKey_upsert_of_ne s sym c _ hs]
          exact h
  | stopGridOp gw now s co =>
      by_cases hs : s = sym
      · subst hs
        show lookupKey s (stop_grid gw now st s co).2.1.activeGrids = none
        rw [stop_grid_of_none gw now st s co h]
        exact h
      · rcases stop_grid_activeGrids_shape gw now st s co with heq | heq
        · show lookupKey sym (stop_grid gw now st s co).2.1.activeGrids = none
          rw [heq]
          exact h
        · show lookupKey sym (stop_grid gw now st s co).2.1.activeGrids = none
          rw [heq, lookupKey_removeKey_of_ne s sym _ hs]
          exact h

theorem getActive_none_steps (st : EngineState) (sym : String)
    (ops : List EngineOp) (h : getActive st sym = none)
    (hops : ∀ op ∈ ops, op.isCreateFor sym = false) :
    getActive (applyOps st ops) sym = none := by
  induction ops generalizing st with
  | nil => exact h
  | cons op rest ih =>
      exact ih (applyOp st op)
        (getActive_none_step st sym op h (hops op (List.mem_cons_self op rest)))
        (fun o ho => hops o (List.mem_cons_of_mem _ ho))

theorem getActive_active_step (st : EngineState) (sym : String) (op : EngineOp)
    (h : ∃ c, getActive st sym = some c ∧ c.active = true)
    (hop : op.isStopFor sym = false) :
    ∃ c, getActive (applyOp st op) sym = some c ∧ c.active = true := by
  obtain ⟨c0, hc0, hact0⟩ := h
  cases op with
  | createGridOp mkt gw now s gc amt u4 pu pl =>
      by_cases hs : s = sym
      · subst hs
        have helim : (lookupKey s st.activeGrids).elim false (fun c => c.active)
            = true := by
          have : lookupKey s st.activeGrids = some c0 := hc0
          rw [this]
          exact hact0
        refine ⟨c0, ?_, hact0⟩
        show lookupKey s (create_grid mkt gw now st s gc amt u4 pu pl).2.1.activeGrids
          = some c0
        rw [create_grid_of_alreadyActive mkt gw now st s gc amt u4 pu pl helim]
        exact hc0
      · rcases create_grid_activeGrids_shape mkt gw now st s gc amt u4 pu pl with
          heq | ⟨c, heq⟩
        · refine ⟨c0, ?_, hact0⟩
          show lookupKey sym (create_grid mkt gw now st s gc amt u4 pu pl).2.1.activeGrids
            = some c0
          rw [heq]
          exact hc0
        · refine ⟨c0, ?_, hact0⟩
          show lookupKey sym (create_grid mkt gw now st s gc amt u4 pu pl).2.1.activeGrids
            = some c0
          rw [heq, lookupKey_upsert_of_ne s sym c _ hs]
          exact hc0
  | updateGridOp gw now s =>
      by_cases hs : s = sym
      · subst hs
        refine ⟨reconciledConfig gw now s c0, ?_, hact0⟩
        show lookupKey s (update_grid gw now st s).2.1.activeGrids
          = some (reconciledConfig gw now s c0)
        rw [update_grid_of_active gw now st s c0 hc0 hact0]
        exact lookupKey_upsert_self s (reconciledConfig gw now s c0) st.activeGrids
      · rcases update_grid_activeGrids_shape gw now st s with heq | ⟨c, heq⟩
        · refine ⟨c0, ?_, hact0⟩
          show lookupKey sym (update_grid gw now st s).2.1.activeGrids = some c0
          rw [heq]
          exact hc0
        · refine ⟨c0, ?_, hact0⟩
          show lookupKey sym (update_grid gw now st s).2.1.activeGrids = some c0
          rw [heq, lookupKey_upsert_of_ne s sym c _ hs]
          exact hc0
  | stopGridOp gw now s co =>
      have hs : s ≠ sym := by simpa [EngineOp.isStopFor] using hop
      rcases stop_grid_activeGrids_shape gw now st s co with heq | heq
      · refine ⟨c0, ?_, hact0⟩
        show lookupKey sym (stop_grid gw now st s co).2.1.activeGrids = some c0
        rw [heq]
        exact hc0
      · refine ⟨c0, ?_, hact0⟩
        show lookupKey sym (stop_grid gw now st s co).2.1.activeGrids = some c0
        rw [heq, lookupKey_removeKey_of_ne s sym _ hs]
        exact hc0

theorem getActive_active_steps (st : EngineState) (sym : String)
    (ops : List EngineOp)
    (h : ∃ c, getActive st sym = some c ∧ c.active = true)
    (hops : ∀ op ∈ ops, op.isStopFor sym = false) :
    ∃ c, getActive (applyOps st ops) sym = some c ∧ c.active = true := by
  induction ops generalizing st with
  | nil => exact h
  | cons op rest ih =>
      exact ih (applyOp st op)
        (getActive_active_step st sym op h (hops op (List.mem_cons_self op rest)))
        (fun o ho => hops o (List.mem_cons_of_mem _ ho))

/-! ### Claim C2 -/

/-- C2 (counterexample): the input `priceUpper = 100001/100000`,
`priceLower = 1`, `gridCount = 2` is valid (`priceUpper > priceLower > 0`,
`gridCount ≥ 2`), yet `_calculate_grid_prices` returns `[1, 1, 1]` — the
4-decimal rounding collapses the micro-spaced ladder, so the result is not
strictly increasing, contradicting the claim as stated. -/
theorem calculate_grid_prices_not_strictly_increasing_cex :
    (1 : ℚ) < 100001 / 100000 ∧ (0 : ℚ) < 1 ∧ (2 : ℕ) ≤ 2 ∧
    calculate_grid_prices (100001 / 100000) 1 2 = [1, 1, 1] ∧
    ¬ List.Chain' (· < ·) (calculate_grid_prices (100001 / 100000) 1 2) := by
  have r0 : round4 1 = 1 := by
    rw [round4_eq 1 10000 (by norm_num) (by norm_num)]
    norm_num
  have r1 : round4 (200001 / 200000) = 1 := by
    rw [round4_eq (200001 / 200000) 10000 (by norm_num) (by norm_num)]
    norm_num
  have r2 : round4 (100001 / 100000) = 1 := by
    rw [round4_eq (100001 / 100000) 10000 (by norm_num) (by norm_num)]
    norm_num
  have hlist : calculate_grid_prices (100001 / 100000) 1 2 = [1, 1, 1] := by
    simp only [calculate_grid_prices]
    norm_num [List.range_succ]
    exact ⟨r0, r1, r2⟩
  refine ⟨by norm_num, by norm_num, le_refl 2, hlist, ?_⟩
  rw [hlist]
  simp

/-- C2 (amended): for every valid input (`priceUpper > priceLower > 0`,
`gridCount ≥ 2`) the ladder has exactly `gridCount + 1` entries, entry `i`
is the ideal level `priceLower + i * (priceUpper - priceLower)/gridCount`
rounded to 4 decimal places (within `5·10⁻⁵` of it), hence the first and
last entries are within `5·10⁻⁵` of `priceLower` and `priceUpper` and
consecutive spacing is within `10⁻⁴` of the ideal step; the ladder is
strictly increasing whenever the ideal step exceeds `10⁻⁴` (but not in
general — see the counterexample). -/
theorem calculate_grid_prices_ladder (pu pl : ℚ) (n : ℕ)
    (hpl : 0 < pl) (hRange : pl < pu) (hn : 2 ≤ n) :
    (calculate_grid_prices pu pl n).length = n + 1 ∧
    (∀ i : ℕ, i ≤ n → (calculate_grid_prices pu pl n).getD i 0
        = round4 (pl + (pu - pl) / n * i) ∧
      |(pl + (pu - pl) / n * i) - (calculate_grid_prices pu pl n).getD i 0|
        ≤ 1 / 20000) ∧
    |pl - (calculate_grid_prices pu pl n).getD 0 0| ≤ 1 / 20000 ∧
    |pu - (calculate_grid_prices pu pl n).getD n 0| ≤ 1 / 20000 ∧
    (∀ i : ℕ, i < n →
      |((calculate_grid_prices pu pl n).getD (i + 1) 0
          - (calculate_grid_prices pu pl n).getD i 0) - (pu - pl) / n|
        ≤ 1 / 10000) ∧
    (1 / 10000 < (pu - pl) / n →
      List.Chain' (· < ·) (calculate_grid_prices pu pl n)) := by
  have hn0 : (n : ℚ) ≠ 0 := by
    have h2 : 0 < n := lt_of_lt_of_le (by norm_num) hn
    exact_mod_cast h2.ne'
  have hgen : ∀ i : ℕ, i ≤ n → (calculate_grid_prices pu pl n).getD i 0
      = round4 (pl + (pu - pl) / n * i) := fun i hi =>
    calculate_grid_prices_getD pu pl n i (Nat.lt_succ_of_le hi)
  refine ⟨calculate_grid_prices_length pu pl n, ?_, ?_, ?_, ?_,
    calculate_grid_prices_chain pu pl n⟩
  · intro i hi
    refine ⟨hgen i hi, ?_⟩
    rw [hgen i hi]
    exact round4_abs_sub _
  · rw [hgen 0 (Nat.zero_le n)]
    have h0 : pl + (pu - pl) / (n : ℚ) * ((0 : ℕ) : ℚ) = pl := by
      push_cast
      ring
    rw [h0]
    exact round4_abs_sub pl
  · rw [hgen n le_rfl]
    have hN : pl + (pu - pl) / (n : ℚ) * ((n : ℕ) : ℚ) = pu := by
      field_simp
    rw [hN]
    exact round4_abs_sub pu
  · intro i hi
    rw [hgen (i + 1) hi, hgen i (le_of_lt hi)]
    have e1 := abs_le.mp (round4_abs_sub (pl + (pu - pl) / n * (i : ℚ)))
    have e2 := abs_le.mp
      (round4_abs_sub (pl + (pu - pl) / n * ((i + 1 : ℕ) : ℚ)))
    have hy : pl + (pu - pl) / (n : ℚ) * ((i + 1 : ℕ) : ℚ)
        = pl + (pu - pl) / n * (i : ℚ) + (pu - pl) / n := by
      push_cast
      ring
    rw [abs_le]
    constructor
    · linarith [e1.1, e1.2, e2.1, e2.2, hy]
    · linarith [e1.1, e1.2, e2.1, e2.2, hy]

/-- C2 (amended, witness): the amended ladder theorem evaluated at
`priceUpper = 3`, `priceLower = 1`, `gridCount = 2` (step `1 > 10⁻⁴`). -/
theorem calculate_grid_prices_ladder_witness :
    (0 : ℚ) < 1 ∧ (1 : ℚ) < 3 ∧ (2 : ℕ) ≤ 2 ∧
    (calculate_grid_prices 3 1 2).length = 2 + 1 ∧
    List.Chain' (· < ·) (calculate_grid_prices 3 1 2) :=
  ⟨by norm_num, by norm_num, le_refl 2,
   (calculate_grid_prices_ladder 3 1 2 (by norm_num) (by norm_num)
     (le_refl 2)).1,
   (calculate_grid_prices_ladder 3 1 2 (by norm_num) (by norm_num)
     (le_refl 2)).2.2.2.2.2 (by norm_num)⟩

/-! ### Claim C3 -/

/-- C3: for a positive current price `c`, an initial buy order is submitted
at level `p` iff `p < 0.99 * c`, a sell order is submitted at `p` iff
`p > 1.01 * c`, and no order is submitted for a level inside the dead band
`0.99*c ≤ p ≤ 1.01*c` (`_create_initial_orders`; submission is recorded
whether or not the gateway accepts the order). -/
theorem initial_order_sides (gw : Gateway) (sym : String) (amt c : ℚ)
    (prices : List ℚ) (hc : 0 < c) (p : ℚ) (hp : p ∈ prices) :
    ((⟨Side.buy, p, amt⟩ : Submission)
        ∈ (create_initial_orders gw sym amt c prices).1
      ↔ p < c * (99 / 100)) ∧
    ((⟨Side.sell, p, amt⟩ : Submission)
        ∈ (create_initial_orders gw sym amt c prices).1
      ↔ c * (101 / 100) < p) ∧
    (c * (99 / 100) ≤ p → p ≤ c * (101 / 100) →
      ∀ s : Side, (⟨s, p, amt⟩ : Submission)
        ∉ (create_initial_orders gw sym amt c prices).1) := by
  have hband : c * (99 / 100) < c * (101 / 100) := by nlinarith
  refine ⟨?_, ?_, ?_⟩
  · rw [mem_initial_submissions]
    constructor
    · rintro ⟨-, -, ⟨-, hlt⟩ | ⟨hside, -, -⟩⟩
      · exact hlt
      · exact Side.noConfusion hside
    · intro hlt
      exact ⟨rfl, hp, Or.inl ⟨rfl, hlt⟩⟩
  · rw [mem_initial_submissions]
    constructor
    · rintro ⟨-, -, ⟨hside, -⟩ | ⟨-, -, hgt⟩⟩
      · exact Side.noConfusion hside
      · exact hgt
    · intro hgt
      have hnl : ¬ p < c * (99 / 100) := by
        intro hl
        linarith
      exact ⟨rfl, hp, Or.inr ⟨rfl, hnl, hgt⟩⟩
  · intro hge hle s hmem
    rw [mem_initial_submissions] at hmem
    obtain ⟨-, -, ⟨-, hlt⟩ | ⟨-, -, hgt⟩⟩ := hmem
    · exact absurd hlt (not_lt.mpr hge)
    · exact absurd hgt (not_lt.mpr hle)

/-- C3 (witness): the side-placement theorem evaluated at current price `2`
and ladder `[1, 2, 3]`: the buy-iff holds at level `1`. -/
theorem initial_order_sides_witness :
    (0 : ℚ) < 2 ∧ (1 : ℚ) ∈ [(1 : ℚ), 2, 3] ∧
    ((⟨Side.buy, 1, 1⟩ : Submission)
        ∈ (create_initial_orders gwReject "btcusdt" 1 2 [1, 2, 3]).1
      ↔ (1 : ℚ) < 2 * (99 / 100)) :=
  ⟨by norm_num, by simp,
   (initial_order_sides gwReject "btcusdt" 1 2 [1, 2, 3] (by norm_num) 1
     (by simp)).1⟩

/-! ### Claim C8 -/

/-- C8: `load_grid_configs` reconstructs the stored configs and re-registers
in `active_grids` exactly the stored configs with `active = true`; when the
persisted store is absent (`FileNotFoundError`) or unreadable (any other
exception), both dicts start empty — the function is total, so startup is
never fatal. -/
theorem load_grid_configs_recovery :
    (∀ configs : List (String × GridConfig),
      (load_grid_configs (LoadInput.stored configs)).gridConfigs = configs ∧
      (load_grid_configs (LoadInput.stored configs)).activeGrids
        = configs.filter (fun p => p.2.active)) ∧
    load_grid_configs LoadInput.fileNotFound = emptyState ∧
    load_grid_configs LoadInput.unreadable = emptyState :=
  ⟨fun _ => ⟨rfl, rfl⟩, rfl, rfl⟩

/-! ### Claim C1 -/

/-- C1: in an `update_grid` tick over an active config, `completed_trades`
grows by exactly the number of orders the gateway reports as filled; the new
pending list is the non-filled orders followed by the accepted replacement
orders (`filterMap` — a rejected replacement is dropped, nothing else is
added for that slot in this tick); for every filled order exactly one
opposite-side replacement submission is sent (`replacementSub`: a filled buy
at `p` yields a sell at `p * 1.005`, a filled sell at `p` a buy at
`p * 0.995`, same amount); and each filled order is removed from the
retained portion of the pending set. -/
theorem update_grid_fill_reconciliation (gw : Gateway) (now : Nat)
    (st : EngineState) (sym : String) (cfg : GridConfig)
    (h : lookupKey sym st.activeGrids = some cfg) (ha : cfg.active = true) :
    ∃ cfg', lookupKey sym (update_grid gw now st sym).2.1.activeGrids
        = some cfg' ∧
      cfg'.completedTrades
        = cfg.completedTrades + (filledFilter gw cfg.pendingOrders).length ∧
      cfg'.pendingOrders = keptFilter gw cfg.pendingOrders
        ++ (filledFilter gw cfg.pendingOrders).filterMap
            (replacementOrder gw sym) ∧
      (update_grid gw now st sym).2.2
        = (filledFilter gw cfg.pendingOrders).map replacementSub ∧
      (∀ o ∈ cfg.pendingOrders,
        statusFilled (gw.getOrderDetail o.orderId) = true →
        o ∉ keptFilter gw cfg.pendingOrders) := by
  refine ⟨reconciledConfig gw now sym cfg, ?_, ?_, ?_, ?_, ?_⟩
  · rw [update_grid_of_active gw now st sym cfg h ha]
    exact lookupKey_upsert_self sym _ st.activeGrids
  · show cfg.completedTrades + (updateLoop gw sym cfg.pendingOrders).completed
      = _
    simp only [updateLoop_eq]
  · show (updateLoop gw sym cfg.pendingOrders).updatedOrders
      ++ (updateLoop gw sym cfg.pendingOrders).newOrders = _
    simp only [updateLoop_eq]
  · rw [update_grid_of_active gw now st sym cfg h ha]
    show (updateLoop gw sym cfg.pendingOrders).submissions = _
    simp only [updateLoop_eq]
  · intro o ho hfill hmem
    rw [keptFilter, List.mem_filter] at hmem
    rw [hfill] at hmem
    simp at hmem

/-- C1 (witness): the reconciliation theorem evaluated on a state holding
one pending buy order against a gateway that reports it filled. -/
theorem update_grid_fill_reconciliation_witness :
    lookupKey "btcusdt" sampleState.activeGrids = some sampleCfg ∧
    sampleCfg.active = true ∧
    ∃ cfg', lookupKey "btcusdt"
        (update_grid gwFilled 1 sampleState "btcusdt").2.1.activeGrids
        = some cfg' ∧
      cfg'.completedTrades = sampleCfg.completedTrades
        + (filledFilter gwFilled sampleCfg.pendingOrders).length ∧
      cfg'.pendingOrders = keptFilter gwFilled sampleCfg.pendingOrders
        ++ (filledFilter gwFilled sampleCfg.pendingOrders).filterMap
            (replacementOrder gwFilled "btcusdt") ∧
      (update_grid gwFilled 1 sampleState "btcusdt").2.2
        = (filledFilter gwFilled sampleCfg.pendingOrders).map replacementSub ∧
      (∀ o ∈ sampleCfg.pendingOrders,
        statusFilled (gwFilled.getOrderDetail o.orderId) = true →
        o ∉ keptFilter gwFilled sampleCfg.pendingOrders) :=
  ⟨rfl, rfl,
   update_grid_fill_reconciliation gwFilled 1 sampleState "btcusdt" sampleCfg
     rfl rfl⟩

/-! ### Claim C4 -/

/-- C4: when the gateway reports a still-resting (non-`'filled'`) state for
every pending order, `update_grid` leaves `pending_orders`,
`completed_trades` and `total_profit` unchanged. -/
theorem update_grid_no_fills_unchanged (gw : Gateway) (now : Nat)
    (st : EngineState) (sym : String) (cfg : GridConfig)
    (h : lookupKey sym st.activeGrids = some cfg) (ha : cfg.active = true)
    (hresting : ∀ o ∈ cfg.pendingOrders,
      ∃ s, gw.getOrderDetail o.orderId = some s ∧ s ≠ "filled") :
    ∃ cfg', lookupKey sym (update_grid gw now st sym).2.1.activeGrids
        = some cfg' ∧
      cfg'.pendingOrders = cfg.pendingOrders ∧
      cfg'.completedTrades = cfg.completedTrades ∧
      cfg'.totalProfit = cfg.totalProfit := by
  have hnf : ∀ o ∈ cfg.pendingOrders,
      statusFilled (gw.getOrderDetail o.orderId) = false := by
    intro o ho
    obtain ⟨s, hs, hne⟩ := hresting o ho
    rw [hs]
    simpa [statusFilled] using hne
  have hfill : filledFilter gw cfg.pendingOrders = [] := by
    rw [filledFilter, List.filter_eq_nil_iff]
    intro o ho
    simp [hnf o ho]
  have hkept : keptFilter gw cfg.pendingOrders = cfg.pendingOrders := by
    rw [keptFilter, List.filter_eq_self]
    intro o ho
    simp [hnf o ho]
  refine ⟨reconciledConfig gw now sym cfg, ?_, ?_, ?_, ?_⟩
  · rw [update_grid_of_active gw now st sym cfg h ha]
    exact lookupKey_upsert_self sym _ st.activeGrids
  · show (updateLoop gw sym cfg.pendingOrders).updatedOrders
      ++ (updateLoop gw sym cfg.pendingOrders).newOrders = _
    simp only [updateLoop_eq]
    simp [hfill, hkept]
  · show cfg.completedTrades + (updateLoop gw sym cfg.pendingOrders).completed
      = cfg.completedTrades
    simp only [updateLoop_eq]
    simp [hfill]
  · show cfg.totalProfit + (updateLoop gw sym cfg.pendingOrders).profit
      = cfg.totalProfit
    simp only [updateLoop_eq]
    simp [hfill]

/-- C4 (witness): the no-fill idempotence theorem evaluated on a state with
one pending order against a gateway reporting `'submitted'`. -/
theorem update_grid_no_fills_unchanged_witness :
    (∀ o ∈ sampleCfg.pendingOrders,
      ∃ s, gwResting.getOrderDetail o.orderId = some s ∧ s ≠ "filled") ∧
    ∃ cfg', lookupKey "btcusdt"
        (update_grid gwResting 1 sampleState "btcusdt").2.1.activeGrids
        = some cfg' ∧
      cfg'.pendingOrders = sampleCfg.pendingOrders ∧
      cfg'.completedTrades = sampleCfg.completedTrades ∧
      cfg'.totalProfit = sampleCfg.totalProfit :=
  ⟨fun _ _ => ⟨"submitted", rfl, by decide⟩,
   update_grid_no_fills_unchanged gwResting 1 sampleState "btcusdt" sampleCfg
     rfl rfl (fun _ _ => ⟨"submitted", rfl, by decide⟩)⟩

/-! ### Claim C10 -/

/-- C10: `update_grid` retains, unchanged, every pending order whose status
lookup is anything other than `'filled'` — including a `'canceled'` report
and a failed lookup (`none`) — so such an order stays in the pending set
(and is therefore re-queried on the next tick, which queries every pending
order). -/
theorem update_grid_retains_unfilled (gw : Gateway) (now : Nat)
    (st : EngineState) (sym : String) (cfg : GridConfig) (o : GridOrder)
    (h : lookupKey sym st.activeGrids = some cfg) (ha : cfg.active = true)
    (ho : o ∈ cfg.pendingOrders)
    (hnf : statusFilled (gw.getOrderDetail o.orderId) = false) :
    ∃ cfg', lookupKey sym (update_grid gw now st sym).2.1.activeGrids
        = some cfg' ∧
      o ∈ cfg'.pendingOrders := by
  refine ⟨reconciledConfig gw now sym cfg, ?_, ?_⟩
  · rw [update_grid_of_active gw now st sym cfg h ha]
    exact lookupKey_upsert_self sym _ st.activeGrids
  · show o ∈ (updateLoop gw sym cfg.pendingOrders).updatedOrders
      ++ (updateLoop gw sym cfg.pendingOrders).newOrders
    simp only [updateLoop_eq]
    apply List.mem_append_left
    rw [keptFilter, List.mem_filter]
    exact ⟨ho, by simp [hnf]⟩

/-- C10 (witness): the retention theorem evaluated on a pending order that
the gateway reports as `'canceled'`. -/
theorem update_grid_retains_unfilled_witness :
    buyOrder1 ∈ sampleCfg.pendingOrders ∧
    statusFilled (gwCanceled.getOrderDetail buyOrder1.orderId) = false ∧
    ∃ cfg', lookupKey "btcusdt"
        (update_grid gwCanceled 1 sampleState "btcusdt").2.1.activeGrids
        = some cfg' ∧
      buyOrder1 ∈ cfg'.pendingOrders :=
  ⟨by simp [sampleCfg], by decide,
   update_grid_retains_unfilled gwCanceled 1 sampleState "btcusdt" sampleCfg
     buyOrder1 rfl rfl (by simp [sampleCfg]) (by decide)⟩

/-! ### Concrete evaluation helpers -/

theorem round4_one : round4 1 = 1 := by
  rw [round4_eq 1 10000 (by norm_num) (by norm_num)]
  norm_num

theorem round4_two : round4 2 = 2 := by
  rw [round4_eq 2 20000 (by norm_num) (by norm_num)]
  norm_num

theorem round4_three : round4 3 = 3 := by
  rw [round4_eq 3 30000 (by norm_num) (by norm_num)]
  norm_num

theorem grid_prices_3_1_2 : calculate_grid_prices 3 1 2 = [1, 2, 3] := by
  simp only [calculate_grid_prices]
  norm_num [List.range_succ]
  exact ⟨round4_one, round4_two, round4_three⟩

theorem grid_prices_3_1_1 : calculate_grid_prices 3 1 1 = [1, 3] := by
  simp only [calculate_grid_prices]
  norm_num [List.range_succ]
  exact ⟨round4_one, round4_three⟩

/-- Evaluation of a successful `create_grid` on the empty state with
explicit bounds `(3, 1)`, current price `2`, two grids: the dead band skips
level `2`, the accepting gateway places the buy at `1` and the sell at `3`. -/
theorem create_sample_ok :
    (create_grid mkt2 gwFilled 0 emptyState "btcusdt" 2 1 false (some 3)
      (some 1)).1 = Except.ok ⟨"btcusdt", 2⟩ := by
  norm_num [create_grid, resolveBounds, mkt2, gwFilled, emptyState, lookupKey,
    grid_prices_3_1_2, create_initial_orders, round4_one, round4_two,
    round4_three]

/-! ### Claim C5 -/

/-- C5: after a successful `stop_grid`, the pair is gone from `active_grids`
(`getActive` reports not-found) while `grid_configs` retains the stopped
config with `active = false` and `stopped_at` stamped; any subsequent
`update_grid` for the pair fails with the no-active-grid error; and no
sequence of engine operations that contains no `create_grid` for the pair
ever makes the pair active again — only a fresh `create_grid` can. -/
theorem stop_grid_terminal (gw : Gateway) (now : Nat) (st : EngineState)
    (sym : String) (co : Bool) (cfg : GridConfig)
    (h : lookupKey sym st.activeGrids = some cfg) :
    getActive (stop_grid gw now st sym co).2.1 sym = none ∧
    lookupKey sym (stop_grid gw now st sym co).2.1.gridConfigs
      = some { cfg with active := false, stoppedAt := some now } ∧
    (∀ gw' now',
      (update_grid gw' now' (stop_grid gw now st sym co).2.1 sym).1
        = Except.error GridError.noActiveGrid) ∧
    (∀ ops : List EngineOp, (∀ op ∈ ops, op.isCreateFor sym = false) →
      getActive (applyOps (stop_grid gw now st sym co).2.1 ops) sym = none) := by
  have hnone : getActive (stop_grid gw now st sym co).2.1 sym = none := by
    show lookupKey sym (stop_grid gw now st sym co).2.1.activeGrids = none
    rw [stop_grid_of_some gw now st sym co cfg h]
    exact lookupKey_removeKey_self sym st.activeGrids
  refine ⟨hnone, ?_, ?_, ?_⟩
  · rw [stop_grid_of_some gw now st sym co cfg h]
    exact lookupKey_upsert_self sym _ st.gridConfigs
  · intro gw' now'
    rw [update_grid_of_none gw' now' _ sym hnone]
  · intro ops hops
    exact getActive_none_steps _ sym ops hnone hops

/-- C5 (witness): stopping the sample state's grid, then updating it. -/
theorem stop_grid_terminal_witness :
    lookupKey "btcusdt" sampleState.activeGrids = some sampleCfg ∧
    getActive (stop_grid gwReject 2 sampleState "btcusdt" true).2.1 "btcusdt"
      = none ∧
    (update_grid gwReject 3 (stop_grid gwReject 2 sampleState "btcusdt" true).2.1
      "btcusdt").1 = Except.error GridError.noActiveGrid :=
  ⟨rfl,
   (stop_grid_terminal gwReject 2 sampleState "btcusdt" true sampleCfg rfl).1,
   (stop_grid_terminal gwReject 2 sampleState "btcusdt" true sampleCfg
     rfl).2.2.1 gwReject 3⟩

/-! ### Claim C6 -/

/-- C6: a pair has at most one active grid at a time: `create_grid` for a
pair whose `active_grids` entry is active fails with the already-active
error, returning the state unchanged and sending no submission; and after a
successful `create_grid`, any operation sequence containing no `stop_grid`
for the pair leaves the pair active, so a second `create_grid` anywhere in
that window also fails with the already-active error. -/
theorem create_grid_single_active (mkt : Market) (gw : Gateway) (now : Nat)
    (st : EngineState) (sym : String) (gc : Nat) (amt : ℚ) (u4 : Bool)
    (pu pl : Option ℚ) :
    (∀ cfg, lookupKey sym st.activeGrids = some cfg → cfg.active = true →
      create_grid mkt gw now st sym gc amt u4 pu pl
        = (Except.error GridError.alreadyActive, st, [])) ∧
    (∀ res, (create_grid mkt gw now st sym gc amt u4 pu pl).1 = Except.ok res →
      ∀ ops : List EngineOp, (∀ op ∈ ops, op.isStopFor sym = false) →
        ∀ mkt' gw' now' gc' amt' u4' pu' pl',
          (create_grid mkt' gw' now'
              (applyOps (create_grid mkt gw now st sym gc amt u4 pu pl).2.1 ops)
              sym gc' amt' u4' pu' pl').1
            = Except.error GridError.alreadyActive) := by
  constructor
  · intro cfg hc ha
    apply create_grid_of_alreadyActive
    rw [hc]
    exact ha
  · intro res hok ops hops mkt' gw' now' gc' amt' u4' pu' pl'
    obtain ⟨bu, bl, c, hb, ht, h1, h2, h3, heq⟩ :=
      create_grid_ok_spec mkt gw now st sym gc amt u4 pu pl res hok
    have hactive : ∃ cf,
        getActive (create_grid mkt gw now st sym gc amt u4 pu pl).2.1 sym
          = some cf ∧ cf.active = true := by
      refine ⟨{ freshConfig sym gc amt bu bl c now with
          pendingOrders := (create_initial_orders gw sym amt c
            (calculate_grid_prices bu bl gc)).2 }, ?_, rfl⟩
      show lookupKey sym
        (create_grid mkt gw now st sym gc amt u4 pu pl).2.1.activeGrids = _
      rw [heq]
      exact lookupKey_upsert_self sym _ _
    obtain ⟨cf, hcf, hcfa⟩ := getActive_active_steps _ sym ops hactive hops
    have helim : (lookupKey sym
        (applyOps (create_grid mkt gw now st sym gc amt u4 pu pl).2.1
          ops).activeGrids).elim false (fun c => c.active) = true := by
      have hcf' : lookupKey sym
          (applyOps (create_grid mkt gw now st sym gc amt u4 pu pl).2.1
            ops).activeGrids = some cf := hcf
      rw [hcf']
      exact hcfa
    rw [create_grid_of_alreadyActive mkt' gw' now' _ sym gc' amt' u4' pu' pl'
      helim]

/-- C6 (witness): a second `create_grid` against the sample state (which
already holds an active grid for the pair) fails with the already-active
error and mutates nothing. -/
theorem create_grid_single_active_witness :
    lookupKey "btcusdt" sampleState.activeGrids = some sampleCfg ∧
    sampleCfg.active = true ∧
    create_grid mkt2 gwReject 1 sampleState "btcusdt" 2 1 false (some 3)
      (some 1) = (Except.error GridError.alreadyActive, sampleState, []) :=
  ⟨rfl, rfl,
   (create_grid_single_active mkt2 gwReject 1 sampleState "btcusdt" 2 1 false
     (some 3) (some 1)).1 sampleCfg rfl rfl⟩

/-! ### Claim C7 -/

/-- C7 (counterexample): `create_grid` does not validate `grid_count` or
`amount_per_grid`: a call with `grid_count = 1` (the claim requires
rejection of values `< 2`) and `amount_per_grid = -1` (the claim requires
rejection of values `≤ 0`) succeeds instead of failing. -/
theorem create_grid_no_input_validation_cex :
    (1 : ℕ) < 2 ∧ (-1 : ℚ) ≤ 0 ∧
    (create_grid mkt2 gwReject 0 emptyState "btcusdt" 1 (-1) false (some 3)
      (some 1)).1 = Except.ok ⟨"btcusdt", 0⟩ := by
  refine ⟨by norm_num, by norm_num, ?_⟩
  norm_num [create_grid, resolveBounds, mkt2, gwReject, emptyState, lookupKey,
    grid_prices_3_1_1, create_initial_orders, round4_one, round4_two,
    round4_three]

/-- C7 (amended): `create_grid` rejects an invalid range
(`price_upper <= price_lower`) synchronously — the error is returned with
the state unchanged and no order submitted; `grid_count` and
`amount_per_grid` are not validated (see the counterexample; a
`grid_count` of `0` fails only through the caught `ZeroDivisionError`). -/
theorem create_grid_invalid_range_rejected (mkt : Market) (gw : Gateway)
    (now : Nat) (st : EngineState) (sym : String) (gc : Nat) (amt : ℚ)
    (pu pl c : ℚ)
    (hactive : (lookupKey sym st.activeGrids).elim false (fun cf => cf.active)
      = false)
    (hticker : mkt.getTicker sym = some c)
    (hpu : pu ≠ 0) (hpl : pl ≠ 0) (hle : pu ≤ pl) :
    create_grid mkt gw now st sym gc amt false (some pu) (some pl)
      = (Except.error GridError.invalidRange, st, []) := by
  simp [create_grid, resolveBounds, hactive, hticker, hpu, hpl, hle]

/-- C7 (amended, witness): the invalid-range rejection evaluated at bounds
`(3, 5)` on the empty state. -/
theorem create_grid_invalid_range_rejected_witness :
    (lookupKey "btcusdt" emptyState.activeGrids).elim false (fun cf => cf.active)
      = false ∧
    mkt2.getTicker "btcusdt" = some 2 ∧
    (3 : ℚ) ≠ 0 ∧ (5 : ℚ) ≠ 0 ∧ (3 : ℚ) ≤ 5 ∧
    create_grid mkt2 gwReject 0 emptyState "btcusdt" 10 1 false (some 3)
      (some 5) = (Except.error GridError.invalidRange, emptyState, []) :=
  ⟨rfl, rfl, by norm_num, by norm_num, by norm_num,
   create_grid_invalid_range_rejected mkt2 gwReject 0 emptyState "btcusdt" 10 1
     3 5 2 rfl rfl (by norm_num) (by norm_num) (by norm_num)⟩

/-! ### Claim C9 -/

/-- C9: after a successful `create_grid`, the persisted record for the pair
has an empty `pending_orders` list — the config is saved before the initial
orders are placed and not saved again inside `create_grid` — while the
in-memory config differs from the persisted one exactly by carrying the
placed orders, whose count is the reported `initial_orders`. -/
theorem create_grid_persisted_before_orders (mkt : Market) (gw : Gateway)
    (now : Nat) (st : EngineState) (sym : String) (gc : Nat) (amt : ℚ)
    (u4 : Bool) (pu pl : Option ℚ) (res : CreateResult)
    (h : (create_grid mkt gw now st sym gc amt u4 pu pl).1 = Except.ok res) :
    ∃ c₀ : GridConfig,
      lookupKey sym (create_grid mkt gw now st sym gc amt u4 pu pl).2.1.persisted
        = some c₀ ∧
      c₀.pendingOrders = [] ∧
      lookupKey sym (create_grid mkt gw now st sym gc amt u4 pu pl).2.1.gridConfigs
        = some { c₀ with pendingOrders := (create_initial_orders gw sym
            c₀.amountPerGrid c₀.currentPrice c₀.gridPrices).2 } ∧
      res.initialOrderCount = (create_initial_orders gw sym c₀.amountPerGrid
        c₀.currentPrice c₀.gridPrices).2.length := by
  obtain ⟨bu, bl, c, hb, ht, h1, h2, h3, heq⟩ :=
    create_grid_ok_spec mkt gw now st sym gc amt u4 pu pl res h
  refine ⟨freshConfig sym gc amt bu bl c now, ?_, rfl, ?_, ?_⟩
  · rw [heq]
    exact lookupKey_upsert_self sym _ st.gridConfigs
  · rw [heq]
    exact lookupKey_upsert_self sym _ _
  · have hres : (Except.ok res : Except GridError CreateResult)
        = Except.ok (⟨sym, (create_initial_orders gw sym amt c
          (calculate_grid_prices bu bl gc)).2.length⟩ : CreateResult) := by
      rw [← h, heq]
    rw [Except.ok.inj hres]
    rfl

/-- C9 (witness): the persisted-before-orders theorem evaluated on the
sample successful creation (two orders placed, persisted record empty). -/
theorem create_grid_persisted_before_orders_witness :
    (create_grid mkt2 gwFilled 0 emptyState "btcusdt" 2 1 false (some 3)
      (some 1)).1 = Except.ok ⟨"btcusdt", 2⟩ ∧
    ∃ c₀ : GridConfig,
      lookupKey "btcusdt" (create_grid mkt2 gwFilled 0 emptyState "btcusdt" 2 1
        false (some 3) (some 1)).2.1.persisted = some c₀ ∧
      c₀.pendingOrders = [] ∧
      lookupKey "btcusdt" (create_grid mkt2 gwFilled 0 emptyState "btcusdt" 2 1
        false (some 3) (some 1)).2.1.gridConfigs
        = some { c₀ with pendingOrders := (create_initial_orders gwFilled
            "btcusdt" c₀.amountPerGrid c₀.currentPrice c₀.gridPrices).2 } ∧
      (⟨"btcusdt", 2⟩ : CreateResult).initialOrderCount
        = (create_initial_orders gwFilled "btcusdt" c₀.amountPerGrid
            c₀.currentPrice c₀.gridPrices).2.length :=
  ⟨create_sample_ok,
   create_grid_persisted_before_orders mkt2 gwFilled 0 emptyState "btcusdt" 2 1
     false (some 3) (some 1) ⟨"btcusdt", 2⟩ create_sample_ok⟩

end GridBot
